import Mathlib

/-!
Shallow embedding of the Bulls-and-Cows game engine (class BullsAndCowsGame in
src/game_logic.py) and verification of the specified properties.

The engine keeps a secret 4-digit code, a universe of candidate codes, and a
subset of currently "valid" candidates; one operation, process_guess, validates
a raw guess string, scores it, refilters the candidate set and reports bulls,
cows, mutual information and entropy.

Modelling conventions:
 - Python ints are ℤ (ℕ where the value is an index/size by construction);
   digit strings are lists of ℕ; raw user input is a list of Char.
 - Python floats are modelled as ℝ: math.log2 is Real.logb 2 and
   round(x, 2) is round2 below.  These are exact-real counterparts of the
   floating-point operations.
 - The fallible conversion int(c) is Char → Option ℕ; an uncaught exception
   (ValueError) surfaces as the result none of process_guess.
 - random.sample(range(10), 4) makes the secret an arbitrary parameter.
-/

namespace BullsCows

open Real

set_option exponentiation.threshold 4000

/-- Decimal digit list of a natural number, most significant digit first:
Python str(i) for a nonnegative int (fuel-based recursion; the fuel n+1
always suffices). -/
def pyStrAux : ℕ → ℕ → List ℕ
  | 0, _ => []
  | fuel+1, n => if n < 10 then [n] else pyStrAux fuel (n / 10) ++ [n % 10]

/-- Python str(n) for a natural number, as its list of decimal digits. -/
def pyStr (n : ℕ) : List ℕ := pyStrAux (n + 1) n

/-- Python str.zfill(4): left-pad the digit string with zeros to length 4. -/
def zfill4 (ds : List ℕ) : List ℕ := List.replicate (4 - ds.length) 0 ++ ds

/-- The mutable state of a BullsAndCowsGame instance (fields of __init__). -/
structure GameState where
  secret : List ℕ
  attempts : ℕ
  previous_guesses : List (List ℕ)
  all_possible_guesses : List (List ℕ)
  valid_guesses : List (List ℕ)

/-- calculate_bulls_and_cows(self, guess), scoring guess against a reference
code (self.secret at the call sites):
bulls = sum(s == g for s, g in zip(secret, guess));
cows  = len(set(secret) & set(guess)) - bulls.
The set intersection size is the number of distinct digits of secret that
occur in guess; the subtraction is Python int subtraction, hence ℤ. -/
def calculate_bulls_and_cows (secret guess : List ℕ) : ℤ × ℤ :=
  let bulls : ℤ := ((secret.zip guess).countP (fun p => p.1 == p.2) : ℕ)
  let inter : ℤ := ((secret.dedup.filter (fun d => guess.contains d)).length : ℕ)
  (bulls, inter - bulls)

/-- generate_possible_guesses(self):
[list(map(int, str(i).zfill(4))) for i in range(10000) if len(set(str(i))) == 4].
Note the distinctness test len(set(str(i))) == 4 is applied to str(i) BEFORE
zero-padding, exactly as in the source. -/
def generate_possible_guesses : List (List ℕ) :=
  ((List.range 10000).filter (fun i => (pyStr i).dedup.length == 4)).map
    (fun i => zfill4 (pyStr i))

/-- update_valid_guesses(self, guess, bulls, cows): replaces valid_guesses by
the sublist of all_possible_guesses whose members score (bulls, cows) by
self.calculate_bulls_and_cows, i.e. scored against self.secret.  The guess
parameter is accepted but never used, exactly as in the source. -/
def update_valid_guesses (st : GameState) (guess : List ℕ) (bulls cows : ℤ) :
    GameState :=
  { st with valid_guesses :=
      (st.all_possible_guesses.filter
        (fun c => calculate_bulls_and_cows st.secret c == (bulls, cows))) }

/-- Python round(x, 2): round to 2 decimal places. -/
noncomputable def round2 (x : ℝ) : ℝ := (round (100 * x) : ℤ) / 100

/-- calculate_entropy(self): log2 of the number of remaining valid guesses if
positive, else 0; the returned value is rounded to 2 decimal places. -/
noncomputable def calculate_entropy (st : GameState) : ℝ :=
  let remaining_possibilities := st.valid_guesses.length
  let entropy : ℝ :=
    if 0 < remaining_possibilities then logb 2 remaining_possibilities else 0
  round2 entropy

/-- calculate_mutual_information(self, previous_entropy): the difference
between previous_entropy and the (already rounded) current entropy, rounded
to 2 decimal places. -/
noncomputable def calculate_mutual_information (st : GameState)
    (previous_entropy : ℝ) : ℝ :=
  let current_entropy := calculate_entropy st
  round2 (previous_entropy - current_entropy)

/-- Python str.isdigit per character.  True on the Unicode characters with
Numeric_Type=Digit that this development mentions: the ASCII decimal digits
and the superscript and subscript digits (U+00B9 U+00B2 U+00B3, U+2070,
U+2074 to U+2079, U+2080 to U+2089), which Python's isdigit accepts although
int() rejects them.  Digit characters of non-ASCII decimal scripts are outside
the modelled alphabet and yield false. -/
def pyCharIsDigit (c : Char) : Bool :=
  ('0' ≤ c && c ≤ '9') ||
  c == '¹' || c == '²' || c == '³' ||
  c == '⁰' || ('⁴' ≤ c && c ≤ '⁹') ||
  ('₀' ≤ c && c ≤ '₉')

/-- Python str.isdigit on a string: nonempty and every character a digit. -/
def pyStrIsDigit (s : List Char) : Bool := !s.isEmpty && s.all pyCharIsDigit

/-- Python int(c) for a single character c: defined exactly on decimal-digit
characters (of the modelled alphabet, the ASCII digits); on every other
character int raises ValueError, modelled as none.  In particular superscript
and subscript digits pass pyCharIsDigit but fail here, as in Python. -/
def pyCharToNat (c : Char) : Option ℕ :=
  if '0' ≤ c && c ≤ '9' then some (c.toNat - '0'.toNat) else none

/-- list(map(int, guess)) for a character list: none when any int(c) raises. -/
def pyMapInt : List Char → Option (List ℕ)
  | [] => some []
  | c :: cs =>
    match pyCharToNat c, pyMapInt cs with
    | some d, some ds => some (d :: ds)
    | _, _ => none

/-- The validation error message returned by process_guess. -/
def invalidMsg : String := "Invalid Input: Enter 4 unique digits!"

/-- The validation rejection test of process_guess:
len(guess) != 4 or not guess.isdigit() or len(set(guess)) != 4. -/
def pyRejects (guess : List Char) : Bool :=
  guess.length != 4 || !(pyStrIsDigit guess) || guess.dedup.length != 4

/-- The value process_guess returns: the error string, the win string
(carrying the attempt count it interpolates), or the
(bulls, cows, mutual_information, entropy) tuple. -/
inductive GuessResult where
  | invalid (msg : String)
  | win (attempts : ℕ)
  | progress (bulls cows : ℤ) (mutual_information entropy : ℝ)

/-- process_guess(self, guess).  Returns none when the Python code raises an
uncaught ValueError (from int() on a character that passed isdigit), otherwise
some of the updated state and the returned value.  Statement order follows the
source: validate; convert digits; increment attempts; score against the
secret; snapshot entropy; refilter; mutual information; entropy; win check. -/
noncomputable def process_guess (st : GameState) (guess : List Char) :
    Option (GameState × GuessResult) :=
  if pyRejects guess then
    some (st, .invalid invalidMsg)
  else
    match pyMapInt guess with
    | none => none
    | some g =>
      let st1 : GameState := { st with attempts := st.attempts + 1 }
      let bc := calculate_bulls_and_cows st1.secret g
      let previous_entropy := calculate_entropy st1
      let st2 := update_valid_guesses st1 g bc.1 bc.2
      let mutual_information := calculate_mutual_information st2 previous_entropy
      let entropy := calculate_entropy st2
      if bc.1 == 4 then some (st2, .win st2.attempts)
      else some (st2, .progress bc.1 bc.2 mutual_information entropy)

/-- __init__(self): attempts 0, empty guess history, the candidate universe,
and valid_guesses aliased to it.  The randomly sampled secret is a
parameter. -/
def initState (secret : List ℕ) : GameState :=
  { secret := secret
    attempts := 0
    previous_guesses := []
    all_possible_guesses := generate_possible_guesses
    valid_guesses := generate_possible_guesses }

/-- reset_game(self): fresh secret, zero attempts, cleared history,
valid_guesses reset to the cached all_possible_guesses. -/
def reset_game (st : GameState) (newSecret : List ℕ) : GameState :=
  { st with
    secret := newSecret
    attempts := 0
    previous_guesses := []
    valid_guesses := st.all_possible_guesses }

/-- The state after a call of process_guess (none when the call raised). -/
noncomputable def postState (st : GameState) (guess : List Char) :
    Option GameState :=
  (process_guess st guess).map Prod.fst

/-- The size of valid_guesses after a call of process_guess (none on raise). -/
noncomputable def postValidLen (st : GameState) (guess : List Char) :
    Option ℕ :=
  (postState st guess).map (fun s => s.valid_guesses.length)

/-- The mutual_information component of the value process_guess returned,
when it returned the progress tuple. -/
def resultMI : Option (GameState × GuessResult) → Option ℝ
  | some (_, .progress _ _ mi _) => some mi
  | _ => none

/-- Whether process_guess returned the validation error string. -/
def resultIsInvalid : Option (GameState × GuessResult) → Bool
  | some (_, .invalid _) => true
  | _ => false

/-- Whether process_guess returned the win string. -/
def resultIsWin : Option (GameState × GuessResult) → Bool
  | some (_, .win _) => true
  | _ => false

/-- The filtering step as the specification words it (spec 4.1 step 5): keep
the universe members that, treated as the hypothetical secret, would give the
observed (bulls, cows) when the submitted guess is scored against them.
Used only to compare the source behaviour with the spec. -/
def update_valid_guesses_spec (st : GameState) (guess : List ℕ)
    (bulls cows : ℤ) : GameState :=
  { st with valid_guesses :=
      (st.all_possible_guesses.filter
        (fun c => calculate_bulls_and_cows c guess == (bulls, cows))) }

/-- The unrounded entropy of a candidate count, as the specification defines
it (log₂ N for N > 0, else 0): used to compare with the rounded entropies the
source actually manipulates. -/
noncomputable def entropyFullPrecision (n : ℕ) : ℝ :=
  if 0 < n then logb 2 n else 0

/-! ### Concrete example sessions used in the concrete theorems

A session whose sampled secret is 1234 (one of the values
random.sample(range(10), 4) can return), and the states the engine reaches
from it after particular guesses.  The stateAfter... definitions spell out
the expected successor states; the theorems below prove that process_guess
actually reaches them. -/

def exampleSession : GameState := initState [1, 2, 3, 4]

/-- Expected state after guess "4321" (feedback bulls 0, cows 4). -/
def stateAfter4321 : GameState :=
  update_valid_guesses
    { exampleSession with attempts := exampleSession.attempts + 1 } [4, 3, 2, 1] 0 4

/-- Expected state after guess "5678" (feedback bulls 0, cows 0). -/
def stateAfter5678 : GameState :=
  update_valid_guesses
    { exampleSession with attempts := exampleSession.attempts + 1 } [5, 6, 7, 8] 0 0

/-- Expected state after guess "1235" (feedback bulls 3, cows 0). -/
def stateAfter1235 : GameState :=
  update_valid_guesses
    { exampleSession with attempts := exampleSession.attempts + 1 } [1, 2, 3, 5] 3 0

/-- Expected state after guess "1235" and then guess "5678". -/
def stateAfter1235then5678 : GameState :=
  update_valid_guesses
    { stateAfter1235 with attempts := stateAfter1235.attempts + 1 } [5, 6, 7, 8] 0 0

/-- State after guess "5678" as the filtering step of the spec (4.1 step 5)
would compute it: used to compare with stateAfter5678. -/
def specStateAfter5678 : GameState :=
  update_valid_guesses_spec
    { exampleSession with attempts := exampleSession.attempts + 1 } [5, 6, 7, 8] 0 0

/-- A second session with the same secret and universe as exampleSession but
a different attempt counter, guess history and current candidate set. -/
def otherHistorySession : GameState :=
  { exampleSession with
    attempts := 7
    previous_guesses := [[9, 8, 7, 6]]
    valid_guesses := [[1, 2, 3, 4]] }

/-- Expected state after otherHistorySession processes guess "5678". -/
def otherHistoryAfter5678 : GameState :=
  update_valid_guesses
    { otherHistorySession with attempts := otherHistorySession.attempts + 1 }
    [5, 6, 7, 8] 0 0

/-- Whether the session's own secret is still a member of valid_guesses
after processing a guess (none when process_guess raised). -/
noncomputable def secretSurvives (st : GameState) (guess : List Char) :
    Option Bool :=
  (postState st guess).map (fun s => decide (st.secret ∈ s.valid_guesses))

/-- Verification helper (not part of the source model): a packed per-index
score with which one kernel evaluation pass over range(10000) simultaneously
counts, among the indices i whose digit string has 4 distinct digits (the
universe members), those whose code scores (3, 0) against the secret 1234
(weight 1), those scoring (0, 0) (weight 10^5), all of them (weight 10^10),
and those whose code is the leading-zero code 0123 (weight 10^15). -/
def univScore (i : ℕ) : ℕ :=
  if (pyStr i).dedup.length == 4 then
    (if calculate_bulls_and_cows [1, 2, 3, 4] (zfill4 (pyStr i))
        == ((3 : ℤ), (0 : ℤ)) then 1 else 0) +
    100000 * (if calculate_bulls_and_cows [1, 2, 3, 4] (zfill4 (pyStr i))
        == ((0 : ℤ), (0 : ℤ)) then 1 else 0) +
    10000000000 +
    1000000000000000 * (if zfill4 (pyStr i) == [0, 1, 2, 3] then 1 else 0)
  else 0

/-! ### Structural lemmas about the engine -/

theorem process_guess_rejected (st : GameState) (guess : List Char)
    (h : pyRejects guess = true) :
    process_guess st guess = some (st, .invalid invalidMsg) := by
  unfold process_guess
  simp [h]

theorem process_guess_raises (st : GameState) (guess : List Char)
    (h : pyRejects guess = false) (hmap : pyMapInt guess = none) :
    process_guess st guess = none := by
  unfold process_guess
  simp [h, hmap]

theorem process_guess_run (st : GameState) (guess : List Char) (g : List ℕ)
    (h : pyRejects guess = false) (hmap : pyMapInt guess = some g) :
    process_guess st guess =
      (let st1 : GameState := { st with attempts := st.attempts + 1 }
       let bc := calculate_bulls_and_cows st.secret g
       let st2 := update_valid_guesses st1 g bc.1 bc.2
       if bc.1 == 4 then some (st2, GuessResult.win st2.attempts)
       else some (st2, GuessResult.progress bc.1 bc.2
         (calculate_mutual_information st2 (calculate_entropy st1))
         (calculate_entropy st2))) := by
  unfold process_guess
  simp [h, hmap]

theorem update_valid_guesses_valid (st : GameState) (g : List ℕ) (b c : ℤ) :
    (update_valid_guesses st g b c).valid_guesses =
      (st.all_possible_guesses.filter
        (fun x => calculate_bulls_and_cows st.secret x == (b, c))) := rfl

theorem update_valid_guesses_all (st : GameState) (g : List ℕ) (b c : ℤ) :
    (update_valid_guesses st g b c).all_possible_guesses =
      st.all_possible_guesses := rfl

theorem update_valid_guesses_secret (st : GameState) (g : List ℕ) (b c : ℤ) :
    (update_valid_guesses st g b c).secret = st.secret := rfl

theorem update_valid_guesses_previous (st : GameState) (g : List ℕ) (b c : ℤ) :
    (update_valid_guesses st g b c).previous_guesses = st.previous_guesses := rfl

theorem calculate_entropy_attempts (st : GameState) (a : ℕ) :
    calculate_entropy { st with attempts := a } = calculate_entropy st := rfl

theorem calculate_entropy_def (st : GameState) :
    calculate_entropy st =
      round2 (entropyFullPrecision st.valid_guesses.length) := rfl

theorem calculate_mutual_information_def (st : GameState) (p : ℝ) :
    calculate_mutual_information st p = round2 (p - calculate_entropy st) := rfl

theorem postState_run (st : GameState) (guess : List Char) (g : List ℕ)
    (b c : ℤ) (h : pyRejects guess = false) (hmap : pyMapInt guess = some g)
    (hbc : calculate_bulls_and_cows st.secret g = (b, c)) :
    postState st guess =
      some (update_valid_guesses { st with attempts := st.attempts + 1 } g b c) := by
  unfold postState
  rw [process_guess_run st guess g h hmap]
  simp only [hbc]
  split <;> simp

theorem resultMI_run (st : GameState) (guess : List Char) (g : List ℕ)
    (b c : ℤ) (h : pyRejects guess = false) (hmap : pyMapInt guess = some g)
    (hbc : calculate_bulls_and_cows st.secret g = (b, c)) (hb : (b == 4) = false) :
    resultMI (process_guess st guess) =
      some (calculate_mutual_information
        (update_valid_guesses { st with attempts := st.attempts + 1 } g b c)
        (calculate_entropy st)) := by
  rw [process_guess_run st guess g h hmap]
  simp only [hbc, hb]
  simp [resultMI, calculate_entropy_attempts]

theorem zfill_mem_generate (i : ℕ) (h1 : i < 10000)
    (h2 : ((pyStr i).dedup.length == 4) = true) :
    zfill4 (pyStr i) ∈ generate_possible_guesses := by
  unfold generate_possible_guesses
  exact List.mem_map_of_mem _ (List.mem_filter.mpr ⟨List.mem_range.mpr h1, h2⟩)

/-! ### Concrete evaluation of the candidate universe

The universe facts are computed by the kernel in five 2000-index chunks of
the packed score univScore, then unpacked arithmetically. -/

theorem sum_univScore (l : List ℕ) :
    (l.map univScore).sum =
      l.countP (fun i => (calculate_bulls_and_cows [1, 2, 3, 4] (zfill4 (pyStr i))
          == ((3 : ℤ), (0 : ℤ))) && ((pyStr i).dedup.length == 4)) +
      100000 * l.countP (fun i => (calculate_bulls_and_cows [1, 2, 3, 4] (zfill4 (pyStr i))
          == ((0 : ℤ), (0 : ℤ))) && ((pyStr i).dedup.length == 4)) +
      10000000000 * l.countP (fun i => (pyStr i).dedup.length == 4) +
      1000000000000000 * l.countP (fun i => (zfill4 (pyStr i) == [0, 1, 2, 3]) &&
          ((pyStr i).dedup.length == 4)) := by
  induction l with
  | nil => simp
  | cons a l ih =>
    simp only [List.map_cons, List.sum_cons, List.countP_cons, ih]
    cases h1 : ((pyStr a).dedup.length == 4) <;>
      cases h2 : (calculate_bulls_and_cows [1, 2, 3, 4] (zfill4 (pyStr a))
        == ((3 : ℤ), (0 : ℤ))) <;>
      cases h3 : (calculate_bulls_and_cows [1, 2, 3, 4] (zfill4 (pyStr a))
        == ((0 : ℤ), (0 : ℤ))) <;>
      cases h4 : (zfill4 (pyStr a) == [0, 1, 2, 3]) <;>
      simp only [univScore, h1, h2, h3, h4, Bool.false_and, Bool.true_and,
        Bool.and_false, Bool.and_true, if_true, if_false] <;>
      simp <;> ring

theorem univScore_chunk0 :
    ((List.range' 0 2000).map univScore).sum = 5040000000018 := by decide!

theorem univScore_chunk1 :
    ((List.range' 2000 2000).map univScore).sum = 10080000000000 := by decide!

theorem univScore_chunk2 :
    ((List.range' 4000 2000).map univScore).sum = 10080006000001 := by decide!

theorem univScore_chunk3 :
    ((List.range' 6000 2000).map univScore).sum = 10080012000002 := by decide!

theorem univScore_chunk4 :
    ((List.range' 8000 2000).map univScore).sum = 10080012000002 := by decide!

theorem sum_map_univScore_split (s m n : ℕ) :
    ((List.range' s (n + m)).map univScore).sum =
      ((List.range' s m).map univScore).sum +
        ((List.range' (s + m) n).map univScore).sum := by
  rw [← List.range'_append_1, List.map_append, List.sum_append]

theorem univScore_total :
    ((List.range 10000).map univScore).sum = 45360030000023 := by
  have e0 := sum_map_univScore_split 0 2000 8000
  have e1 := sum_map_univScore_split 2000 2000 6000
  have e2 := sum_map_univScore_split 4000 2000 4000
  have e3 := sum_map_univScore_split 6000 2000 2000
  norm_num at e0 e1 e2 e3
  rw [List.range_eq_range', e0, e1, e2, e3, univScore_chunk0, univScore_chunk1,
    univScore_chunk2, univScore_chunk3, univScore_chunk4]

theorem universe_counts :
    (List.range 10000).countP (fun i => (calculate_bulls_and_cows [1, 2, 3, 4]
        (zfill4 (pyStr i)) == ((3 : ℤ), (0 : ℤ))) && ((pyStr i).dedup.length == 4))
      = 23 ∧
    (List.range 10000).countP (fun i => (calculate_bulls_and_cows [1, 2, 3, 4]
        (zfill4 (pyStr i)) == ((0 : ℤ), (0 : ℤ))) && ((pyStr i).dedup.length == 4))
      = 300 ∧
    (List.range 10000).countP (fun i => (pyStr i).dedup.length == 4) = 4536 ∧
    (List.range 10000).countP (fun i => (zfill4 (pyStr i) == [0, 1, 2, 3]) &&
        ((pyStr i).dedup.length == 4)) = 0 := by
  have hsum : ((List.range 10000).map univScore).sum = 45360030000023 :=
    univScore_total
  rw [sum_univScore] at hsum
  have b1 : (List.range 10000).countP (fun i => (calculate_bulls_and_cows [1, 2, 3, 4]
      (zfill4 (pyStr i)) == ((3 : ℤ), (0 : ℤ))) && ((pyStr i).dedup.length == 4))
      ≤ 10000 :=
    (List.countP_le_length _).trans (Nat.le_of_eq (List.length_range 10000))
  have b2 : (List.range 10000).countP (fun i => (calculate_bulls_and_cows [1, 2, 3, 4]
      (zfill4 (pyStr i)) == ((0 : ℤ), (0 : ℤ))) && ((pyStr i).dedup.length == 4))
      ≤ 10000 :=
    (List.countP_le_length _).trans (Nat.le_of_eq (List.length_range 10000))
  have b3 : (List.range 10000).countP (fun i => (pyStr i).dedup.length == 4)
      ≤ 10000 :=
    (List.countP_le_length _).trans (Nat.le_of_eq (List.length_range 10000))
  have b4 : (List.range 10000).countP (fun i => (zfill4 (pyStr i) == [0, 1, 2, 3]) &&
      ((pyStr i).dedup.length == 4)) ≤ 10000 :=
    (List.countP_le_length _).trans (Nat.le_of_eq (List.length_range 10000))
  refine ⟨?_, ?_, ?_, ?_⟩ <;> omega

theorem generate_length : generate_possible_guesses.length = 4536 := by
  unfold generate_possible_guesses
  rw [List.length_map, ← List.countP_eq_length_filter]
  exact universe_counts.2.2.1

theorem leading_zero_not_mem : [0, 1, 2, 3] ∉ generate_possible_guesses := by
  intro hmem
  unfold generate_possible_guesses at hmem
  obtain ⟨i, hi, hF⟩ := List.mem_map.mp hmem
  have hP : ((pyStr i).dedup.length == 4) = true := (List.mem_filter.mp hi).2
  have hpos : 0 < (List.range 10000).countP (fun j => (zfill4 (pyStr j) == [0, 1, 2, 3])
      && ((pyStr j).dedup.length == 4)) :=
    List.countP_pos_iff.mpr ⟨i, (List.mem_filter.mp hi).1, by simp [hF, hP]⟩
  rw [universe_counts.2.2.2] at hpos
  exact absurd hpos (by norm_num)

theorem filter_feedback30_length :
    (generate_possible_guesses.filter
      (fun x => calculate_bulls_and_cows [1, 2, 3, 4] x == ((3 : ℤ), (0 : ℤ)))).length
      = 23 := by
  unfold generate_possible_guesses
  rw [← List.countP_eq_length_filter, List.countP_map, List.countP_filter]
  exact universe_counts.1

theorem filter_feedback00_length :
    (generate_possible_guesses.filter
      (fun x => calculate_bulls_and_cows [1, 2, 3, 4] x == ((0 : ℤ), (0 : ℤ)))).length
      = 300 := by
  unfold generate_possible_guesses
  rw [← List.countP_eq_length_filter, List.countP_map, List.countP_filter]
  exact universe_counts.2.1

/-! ### Integer power bounds pinning down the rounded log₂ values -/

set_option exponentiation.threshold 3000 in
set_option maxRecDepth 4000 in
theorem pow_bounds_4536 : 2 ^ 2429 ≤ 4536 ^ 200 ∧ 4536 ^ 200 < 2 ^ 2431 := by
  decide

set_option exponentiation.threshold 3000 in
set_option maxRecDepth 4000 in
theorem pow_bounds_23 : 2 ^ 903 ≤ 23 ^ 200 ∧ 23 ^ 200 < 2 ^ 905 := by decide

set_option exponentiation.threshold 3000 in
set_option maxRecDepth 4000 in
theorem pow_bounds_300 : 2 ^ 1645 ≤ 300 ^ 200 ∧ 300 ^ 200 < 2 ^ 1647 := by
  decide

set_option exponentiation.threshold 3000 in
set_option maxRecDepth 4000 in
theorem pow_bounds_4536_over_23 :
    23 ^ 200 * 2 ^ 1523 ≤ 4536 ^ 200 ∧ 4536 ^ 200 < 23 ^ 200 * 2 ^ 1525 := by
  decide

/-! ### Road from integer power bounds to exact rounded logaritm values -/

theorem nat_le_mul_logb (N m j : ℕ) (hN : 0 < N) (h : 2 ^ j ≤ N ^ m) :
    (j : ℝ) ≤ m * logb 2 N := by
  have hcast : ((2 : ℝ)) ^ j ≤ (N : ℝ) ^ m := by exact_mod_cast h
  have h2 : logb 2 ((2 : ℝ) ^ j) ≤ logb 2 ((N : ℝ) ^ m) :=
    Real.logb_le_logb_of_le one_lt_two (pow_pos two_pos j) hcast
  rw [Real.logb_pow, Real.logb_pow, Real.logb_self_eq_one one_lt_two] at h2
  simpa using h2

theorem mul_logb_lt_nat (N m j : ℕ) (hN : 0 < N) (h : N ^ m < 2 ^ j) :
    (m : ℝ) * logb 2 N < j := by
  have hNpos : (0 : ℝ) < (N : ℝ) ^ m := by positivity
  have hcast : (N : ℝ) ^ m < (2 : ℝ) ^ j := by exact_mod_cast h
  have h2 : logb 2 ((N : ℝ) ^ m) < logb 2 ((2 : ℝ) ^ j) :=
    Real.logb_lt_logb one_lt_two hNpos hcast
  rw [Real.logb_pow, Real.logb_pow, Real.logb_self_eq_one one_lt_two] at h2
  simpa using h2

theorem le_mul_logb_add (M N j m : ℕ) (hM : 0 < M) (hN : 0 < N)
    (h : M ^ m * 2 ^ j ≤ N ^ m) :
    (m : ℝ) * logb 2 M + j ≤ m * logb 2 N := by
  have hMpos : (0 : ℝ) < (M : ℝ) ^ m := by positivity
  have h2pos : (0 : ℝ) < (2 : ℝ) ^ j := by positivity
  have hcast : (M : ℝ) ^ m * (2 : ℝ) ^ j ≤ (N : ℝ) ^ m := by exact_mod_cast h
  have h2 : logb 2 ((M : ℝ) ^ m * (2 : ℝ) ^ j) ≤ logb 2 ((N : ℝ) ^ m) :=
    Real.logb_le_logb_of_le one_lt_two (by positivity) hcast
  rw [Real.logb_mul (ne_of_gt hMpos) (ne_of_gt h2pos), Real.logb_pow,
    Real.logb_pow, Real.logb_pow, Real.logb_self_eq_one one_lt_two] at h2
  simpa using h2

theorem mul_logb_lt_add (M N j m : ℕ) (hM : 0 < M) (hN : 0 < N)
    (h : N ^ m < M ^ m * 2 ^ j) :
    (m : ℝ) * logb 2 N < m * logb 2 M + j := by
  have hMpos : (0 : ℝ) < (M : ℝ) ^ m := by positivity
  have h2pos : (0 : ℝ) < (2 : ℝ) ^ j := by positivity
  have hNpos : (0 : ℝ) < (N : ℝ) ^ m := by positivity
  have hcast : (N : ℝ) ^ m < (M : ℝ) ^ m * (2 : ℝ) ^ j := by exact_mod_cast h
  have h2 : logb 2 ((N : ℝ) ^ m) < logb 2 ((M : ℝ) ^ m * (2 : ℝ) ^ j) :=
    Real.logb_lt_logb one_lt_two hNpos hcast
  rw [Real.logb_mul (ne_of_gt hMpos) (ne_of_gt h2pos), Real.logb_pow,
    Real.logb_pow, Real.logb_pow, Real.logb_self_eq_one one_lt_two] at h2
  simpa using h2

theorem round_eq_int (x : ℝ) (k : ℤ) (h1 : (k : ℝ) - 1 / 2 ≤ x)
    (h2 : x < k + 1 / 2) : round x = k := by
  rw [round_eq]
  apply Int.floor_eq_iff.mpr
  constructor
  · linarith
  · linarith

theorem round_hundred_logb (N k : ℕ) (hk : 0 < k) (hN : 0 < N)
    (h1 : 2 ^ (2 * k - 1) ≤ N ^ 200) (h2 : N ^ 200 < 2 ^ (2 * k + 1)) :
    round ((100 : ℝ) * logb 2 N) = (k : ℤ) := by
  have a1 := nat_le_mul_logb N 200 (2 * k - 1) hN h1
  have a2 := mul_logb_lt_nat N 200 (2 * k + 1) hN h2
  have hle : (1 : ℕ) ≤ 2 * k := by omega
  rw [Nat.cast_sub hle] at a1
  push_cast at a1 a2
  apply round_eq_int
  · push_cast
    linarith
  · push_cast
    linarith

theorem round_hundred_logb_sub (N M k : ℕ) (hk : 0 < k) (hN : 0 < N)
    (hM : 0 < M) (h1 : M ^ 200 * 2 ^ (2 * k - 1) ≤ N ^ 200)
    (h2 : N ^ 200 < M ^ 200 * 2 ^ (2 * k + 1)) :
    round ((100 : ℝ) * (logb 2 N - logb 2 M)) = (k : ℤ) := by
  have a1 := le_mul_logb_add M N (2 * k - 1) 200 hM hN h1
  have a2 := mul_logb_lt_add M N (2 * k + 1) 200 hM hN h2
  have hle : (1 : ℕ) ≤ 2 * k := by omega
  rw [Nat.cast_sub hle] at a1
  push_cast at a1 a2
  apply round_eq_int
  · push_cast
    linarith
  · push_cast
    linarith

theorem round2_of_round (x : ℝ) (k : ℤ) (h : round (100 * x) = k) :
    round2 x = (k : ℝ) / 100 := by
  rw [round2, h]

theorem round2_int_div (A : ℤ) : round2 ((A : ℝ) / 100) = (A : ℝ) / 100 := by
  have h : (100 : ℝ) * ((A : ℝ) / 100) = (A : ℝ) := by ring
  rw [round2, h, round_intCast]

theorem round2_mono {x y : ℝ} (h : x ≤ y) : round2 x ≤ round2 y := by
  unfold round2
  have hr : round (100 * x) ≤ round (100 * y) := by
    rw [round_eq, round_eq]
    exact Int.floor_le_floor (by linarith)
  have hc : ((round (100 * x) : ℤ) : ℝ) ≤ ((round (100 * y) : ℤ) : ℝ) :=
    Int.cast_le.mpr hr
  linarith

theorem round2_zero : round2 0 = 0 := by
  unfold round2
  norm_num

theorem round2_nonneg {x : ℝ} (h : 0 ≤ x) : 0 ≤ round2 x := by
  have h2 := round2_mono h
  rwa [round2_zero] at h2

/-! ### Entropy monotonicity in the candidate count -/

theorem entropyFullPrecision_nonneg (n : ℕ) : 0 ≤ entropyFullPrecision n := by
  unfold entropyFullPrecision
  by_cases h : 0 < n
  · simp only [h, if_true]
    exact Real.logb_nonneg one_lt_two (by exact_mod_cast h)
  · simp [h]

theorem entropyFullPrecision_mono {m n : ℕ} (h : m ≤ n) :
    entropyFullPrecision m ≤ entropyFullPrecision n := by
  by_cases hm : 0 < m
  · have hn : 0 < n := lt_of_lt_of_le hm h
    unfold entropyFullPrecision
    simp only [hm, hn, if_true]
    exact Real.logb_le_logb_of_le one_lt_two (by exact_mod_cast hm)
      (by exact_mod_cast h)
  · have hm0 : m = 0 := by omega
    subst hm0
    have : entropyFullPrecision 0 = 0 := by simp [entropyFullPrecision]
    rw [this]
    exact entropyFullPrecision_nonneg n

theorem calculate_entropy_nonneg (st : GameState) : 0 ≤ calculate_entropy st := by
  rw [calculate_entropy_def]
  exact round2_nonneg (entropyFullPrecision_nonneg _)

theorem calculate_entropy_mono (st st2 : GameState)
    (h : st2.valid_guesses.length ≤ st.valid_guesses.length) :
    calculate_entropy st2 ≤ calculate_entropy st := by
  rw [calculate_entropy_def, calculate_entropy_def]
  exact round2_mono (entropyFullPrecision_mono h)

theorem update_valid_guesses_spec_valid (st : GameState) (g : List ℕ)
    (b c : ℤ) :
    (update_valid_guesses_spec st g b c).valid_guesses =
      (st.all_possible_guesses.filter
        (fun x => calculate_bulls_and_cows x g == (b, c))) := rfl

theorem pyRejects_eq_false (g : List Char) :
    pyRejects g = false ↔
      (g.length = 4 ∧ pyStrIsDigit g = true ∧ g.dedup.length = 4) := by
  simp [pyRejects, and_assoc]

theorem exampleSession_valid :
    exampleSession.valid_guesses = generate_possible_guesses := by
  simp only [exampleSession, initState]

theorem exampleSession_all :
    exampleSession.all_possible_guesses = generate_possible_guesses := by
  simp only [exampleSession, initState]

theorem exampleSession_secret : exampleSession.secret = [1, 2, 3, 4] := by
  decide

theorem attempts_update_secret (st : GameState) (a : ℕ) :
    ({ st with attempts := a } : GameState).secret = st.secret := rfl

theorem attempts_update_all (st : GameState) (a : ℕ) :
    ({ st with attempts := a } : GameState).all_possible_guesses =
      st.all_possible_guesses := rfl

theorem attempts_update_valid (st : GameState) (a : ℕ) :
    ({ st with attempts := a } : GameState).valid_guesses =
      st.valid_guesses := rfl

/-! ### The claims -/

/-- C1: the claim that the secret always remains in valid_guesses is FALSE of
the code.  With secret 1234, the validated guess "4321" has feedback
(bulls, cows) = (0, 4); update_valid_guesses then keeps exactly the universe
codes that score (0, 4) against the secret, and the secret itself scores
(4, 0) against the secret, so it is filtered out. -/
theorem claim_C1 :
    secretSurvives exampleSession ['4', '3', '2', '1'] = some false := by
  unfold secretSurvives
  rw [postState_run exampleSession _ [4, 3, 2, 1] 0 4 (by decide) (by decide)
    (by decide)]
  rw [Option.map_some', Option.some.injEq]
  rw [decide_eq_false_iff_not]
  intro hmem
  rw [update_valid_guesses_valid] at hmem
  exact absurd (List.mem_filter.mp hmem).2 (by decide)

/-- C2: the claim that the filtering step scores each universe candidate
against the submitted guess is FALSE of the code: update_valid_guesses
ignores its guess argument and scores candidates against the true secret.
With secret 1234 and guess "5678" (feedback (0, 0)) the code keeps the guess
5678 itself (it shares no digit with the secret), while the spec's filter
discards it (it scores (4, 0) against itself); the two candidate sets
differ. -/
theorem claim_C2 :
    postState exampleSession ['5', '6', '7', '8'] = some stateAfter5678 ∧
    [5, 6, 7, 8] ∈ stateAfter5678.valid_guesses ∧
    [5, 6, 7, 8] ∉ specStateAfter5678.valid_guesses ∧
    stateAfter5678.valid_guesses ≠ specStateAfter5678.valid_guesses := by
  have hmem : [5, 6, 7, 8] ∈ stateAfter5678.valid_guesses := by
    rw [stateAfter5678, update_valid_guesses_valid, attempts_update_all,
      exampleSession_all]
    refine List.mem_filter.mpr ⟨?_, by decide⟩
    have h1 : zfill4 (pyStr 5678) ∈ generate_possible_guesses :=
      zfill_mem_generate 5678 (by decide) (by decide)
    have h2 : zfill4 (pyStr 5678) = [5, 6, 7, 8] := by decide
    rw [h2] at h1
    exact h1
  have hnot : [5, 6, 7, 8] ∉ specStateAfter5678.valid_guesses := by
    rw [specStateAfter5678, update_valid_guesses_spec_valid]
    intro hmem2
    exact absurd (List.mem_filter.mp hmem2).2 (by decide)
  refine ⟨?_, hmem, hnot, ?_⟩
  · exact postState_run exampleSession _ [5, 6, 7, 8] 0 0 (by decide) (by decide)
      (by decide)
  · intro heq
    rw [heq] at hmem
    exact hnot hmem

/-- C3: the claim that the candidate universe has 10·9·8·7 = 5040 codes,
leading-zero codes included, is FALSE of the code: the comprehension tests
len(set(str(i))) == 4 before zero-padding, so every i < 1000 is dropped and
codes with a leading zero (such as 0123) are missing; the universe has
9·9·8·7 = 4536 codes, and a fresh session starts with 4536 candidates. -/
theorem claim_C3 :
    generate_possible_guesses.length = 4536 ∧
    exampleSession.valid_guesses.length = 4536 ∧
    generate_possible_guesses.length ≠ 5040 ∧
    [0, 1, 2, 3] ∉ generate_possible_guesses := by
  refine ⟨generate_length, ?_, ?_, leading_zero_not_mem⟩
  · rw [exampleSession_valid]
    exact generate_length
  · rw [generate_length]
    norm_num

/-- C7: the claim that process_guess always returns (never raises) is FALSE
of the code.  The string "123²" has 4 characters, passes isdigit (the
superscript two has the Unicode digit property) and has 4 distinct
characters, so validation accepts it; int() then raises ValueError on the
superscript two, an uncaught exception (modelled as none). -/
theorem claim_C7 :
    pyRejects ['1', '2', '3', '²'] = false ∧
    process_guess exampleSession ['1', '2', '3', '²'] = none := by
  refine ⟨by decide, ?_⟩
  exact process_guess_raises _ _ (by decide) (by decide)

/-- C9: the claim that process_guess appends every validated guess to
previous_guesses is FALSE of the code: no statement of process_guess writes
previous_guesses, so after a validated guess (attempts = 1) the history is
still empty. -/
theorem claim_C9 :
    postState exampleSession ['5', '6', '7', '8'] = some stateAfter5678 ∧
    stateAfter5678.attempts = 1 ∧
    stateAfter5678.previous_guesses = [] := by
  refine ⟨?_, rfl, rfl⟩
  exact postState_run exampleSession _ [5, 6, 7, 8] 0 0 (by decide) (by decide)
    (by decide)

/-- C6 counterexample: "123²" violates the claimed acceptance condition (its
last character is not a decimal digit), yet process_guess does not return the
validation error message: the isdigit check also accepts superscript digits,
and the call then dies in int() instead of reporting validation failure. -/
theorem claim_C6_cex :
    (['1', '2', '3', '²'].all (fun c => '0' ≤ c && c ≤ '9')) = false ∧
    resultIsInvalid (process_guess exampleSession ['1', '2', '3', '²'])
      = false := by
  refine ⟨by decide, ?_⟩
  rw [process_guess_raises _ _ (by decide) (by decide)]
  rfl

/-- C6 (amended): process_guess returns the validation error exactly when the
guess fails the source's test (4 characters, Python-isdigit — which also
admits superscript and subscript digits — and 4 pairwise distinct
characters); on that failure the state is returned unmodified and the
message is always the same fixed string. -/
theorem claim_C6_amended (st : GameState) (g : List Char) :
    (¬ (g.length = 4 ∧ pyStrIsDigit g = true ∧ g.dedup.length = 4) →
      process_guess st g = some (st, .invalid invalidMsg)) ∧
    ((g.length = 4 ∧ pyStrIsDigit g = true ∧ g.dedup.length = 4) →
      resultIsInvalid (process_guess st g) = false) := by
  constructor
  · intro h
    apply process_guess_rejected
    cases hb : pyRejects g with
    | true => rfl
    | false => exact absurd ((pyRejects_eq_false g).mp hb) h
  · intro h
    have hb : pyRejects g = false := (pyRejects_eq_false g).mpr h
    cases hmap : pyMapInt g with
    | none =>
      rw [process_guess_raises st g hb hmap]
      rfl
    | some ds =>
      rw [process_guess_run st g ds hb hmap]
      dsimp only
      split
      · rfl
      · rfl

/-- Witness for C6 (amended): "1123" (repeated digit) is rejected with the
fixed message and unchanged state; "1234" is not rejected. -/
theorem claim_C6_amended_witness :
    process_guess exampleSession ['1', '1', '2', '3'] =
      some (exampleSession, .invalid invalidMsg) ∧
    resultIsInvalid (process_guess exampleSession ['1', '2', '3', '4'])
      = false :=
  ⟨(claim_C6_amended exampleSession ['1', '1', '2', '3']).1 (by decide),
   (claim_C6_amended exampleSession ['1', '2', '3', '4']).2 (by decide)⟩

theorem exampleSession_len : exampleSession.valid_guesses.length = 4536 := by
  rw [exampleSession_valid]
  exact generate_length

theorem stateAfter1235_secret : stateAfter1235.secret = [1, 2, 3, 4] := by
  decide

theorem stateAfter1235_all :
    stateAfter1235.all_possible_guesses = generate_possible_guesses := by
  rw [stateAfter1235, update_valid_guesses_all, attempts_update_all,
    exampleSession_all]

theorem stateAfter1235_len : stateAfter1235.valid_guesses.length = 23 := by
  rw [stateAfter1235, update_valid_guesses_valid, attempts_update_all,
    attempts_update_secret, exampleSession_all, exampleSession_secret]
  exact filter_feedback30_length

theorem stateAfter1235then5678_len :
    stateAfter1235then5678.valid_guesses.length = 300 := by
  rw [stateAfter1235then5678, update_valid_guesses_valid, attempts_update_all,
    attempts_update_secret, stateAfter1235_all, stateAfter1235_secret]
  exact filter_feedback00_length

theorem entropyFullPrecision_of_pos (n : ℕ) (h : 0 < n) :
    entropyFullPrecision n = logb 2 n := by
  unfold entropyFullPrecision
  rw [if_pos h]

/-- C4 counterexample: with secret 1234, processing "1235" (feedback (3, 0))
leaves 23 candidates, and then processing "5678" (feedback (0, 0)) leaves
300 candidates: the candidate set size regrows between two consecutive
successfully processed guesses of one session. -/
theorem claim_C4_cex :
    postState exampleSession ['1', '2', '3', '5'] = some stateAfter1235 ∧
    postState stateAfter1235 ['5', '6', '7', '8'] = some stateAfter1235then5678 ∧
    stateAfter1235.valid_guesses.length = 23 ∧
    stateAfter1235then5678.valid_guesses.length = 300 ∧
    ¬ (stateAfter1235then5678.valid_guesses.length ≤
        stateAfter1235.valid_guesses.length) := by
  refine ⟨?_, ?_, stateAfter1235_len, stateAfter1235then5678_len, ?_⟩
  · exact postState_run exampleSession _ [1, 2, 3, 5] 3 0 (by decide) (by decide)
      (by decide)
  · exact postState_run stateAfter1235 _ [5, 6, 7, 8] 0 0 (by decide) (by decide)
      (by decide)
  · rw [stateAfter1235_len, stateAfter1235then5678_len]
    norm_num

/-- C4 (amended): after every successfully validated processed guess the
candidate set is recomputed as a filter of the stored universe, so its size
never exceeds |all_possible_guesses|; it is not monotonically non-increasing
across guesses (the counterexample theorem exhibits 23 then 300). -/
theorem claim_C4_amended (st : GameState) (g : List Char)
    (h : resultIsInvalid (process_guess st g) = false) :
    (postValidLen st g).getD 0 ≤ st.all_possible_guesses.length := by
  cases hb : pyRejects g with
  | true =>
    rw [process_guess_rejected st g hb] at h
    simp [resultIsInvalid] at h
  | false =>
    cases hmap : pyMapInt g with
    | none =>
      unfold postValidLen postState
      rw [process_guess_raises st g hb hmap]
      simp
    | some ds =>
      have hpost := postState_run st g ds
        (calculate_bulls_and_cows st.secret ds).1
        (calculate_bulls_and_cows st.secret ds).2 hb hmap rfl
      unfold postValidLen
      rw [hpost, Option.map_some', Option.getD_some, update_valid_guesses_valid,
        attempts_update_all]
      exact List.length_filter_le _ _

/-- Witness for C4 (amended): the validated guess "5678" on a fresh session. -/
theorem claim_C4_amended_witness :
    resultIsInvalid (process_guess exampleSession ['5', '6', '7', '8']) = false ∧
    (postValidLen exampleSession ['5', '6', '7', '8']).getD 0 ≤
      exampleSession.all_possible_guesses.length := by
  have h : resultIsInvalid (process_guess exampleSession ['5', '6', '7', '8'])
      = false := by
    rw [process_guess_run exampleSession _ [5, 6, 7, 8] (by decide) (by decide)]
    dsimp only
    split
    · rfl
    · rfl
  exact ⟨h, claim_C4_amended _ _ h⟩

/-- C5 counterexample: in the session of the C4 counterexample the second
guess "5678" grows the candidate set from 23 to 300, and the returned
mutual_information is round((log₂23 rounded) − (log₂300 rounded), 2)
= −3.71 < 0. -/
theorem claim_C5_cex :
    postState exampleSession ['1', '2', '3', '5'] = some stateAfter1235 ∧
    resultMI (process_guess stateAfter1235 ['5', '6', '7', '8']) =
      some (-(371 : ℝ) / 100) ∧
    (-(371 : ℝ) / 100 : ℝ) < 0 := by
  refine ⟨postState_run exampleSession _ [1, 2, 3, 5] 3 0 (by decide) (by decide)
    (by decide), ?_, by norm_num⟩
  rw [resultMI_run stateAfter1235 _ [5, 6, 7, 8] 0 0 (by decide) (by decide)
    (by decide) (by decide)]
  show some (calculate_mutual_information stateAfter1235then5678
    (calculate_entropy stateAfter1235)) = _
  rw [Option.some.injEq, calculate_mutual_information_def, calculate_entropy_def,
    calculate_entropy_def, stateAfter1235_len, stateAfter1235then5678_len,
    entropyFullPrecision_of_pos 23 (by norm_num),
    entropyFullPrecision_of_pos 300 (by norm_num)]
  have h23 : round ((100 : ℝ) * logb 2 (23 : ℕ)) = (452 : ℤ) := by
    exact_mod_cast round_hundred_logb 23 452 (by norm_num) (by norm_num)
      pow_bounds_23.1 pow_bounds_23.2
  have h300 : round ((100 : ℝ) * logb 2 (300 : ℕ)) = (823 : ℤ) := by
    exact_mod_cast round_hundred_logb 300 823 (by norm_num) (by norm_num)
      pow_bounds_300.1 pow_bounds_300.2
  rw [round2_of_round _ _ h23, round2_of_round _ _ h300]
  have hsub : ((452 : ℤ) : ℝ) / 100 - ((823 : ℤ) : ℝ) / 100 =
      ((-371 : ℤ) : ℝ) / 100 := by
    push_cast
    ring
  rw [hsub, round2_int_div]
  push_cast
  ring

/-- C5 (amended): the returned mutual_information is nonnegative whenever the
filtering step does not increase the candidate count (in particular on the
first guess of a session); because the set is recomputed from the full
universe on every guess, the count can grow and the value can be negative
(counterexample theorem). -/
theorem claim_C5_amended (st : GameState) (g : List Char)
    (h : (postValidLen st g).getD 0 ≤ st.valid_guesses.length) :
    0 ≤ (resultMI (process_guess st g)).getD 0 := by
  cases hb : pyRejects g with
  | true =>
    rw [process_guess_rejected st g hb]
    simp [resultMI]
  | false =>
    cases hmap : pyMapInt g with
    | none =>
      rw [process_guess_raises st g hb hmap]
      simp [resultMI]
    | some ds =>
      cases hwin : (calculate_bulls_and_cows st.secret ds).1 == 4 with
      | true =>
        rw [process_guess_run st g ds hb hmap]
        dsimp only
        rw [hwin]
        simp [resultMI]
      | false =>
        rw [resultMI_run st g ds
          (calculate_bulls_and_cows st.secret ds).1
          (calculate_bulls_and_cows st.secret ds).2 hb hmap rfl hwin]
        rw [Option.getD_some, calculate_mutual_information_def]
        apply round2_nonneg
        have hlen : (update_valid_guesses
            { st with attempts := st.attempts + 1 } ds
            (calculate_bulls_and_cows st.secret ds).1
            (calculate_bulls_and_cows st.secret ds).2).valid_guesses.length ≤
            st.valid_guesses.length := by
          have hpost := postState_run st g ds
            (calculate_bulls_and_cows st.secret ds).1
            (calculate_bulls_and_cows st.secret ds).2 hb hmap rfl
          unfold postValidLen at h
          rw [hpost, Option.map_some', Option.getD_some] at h
          exact h
        have hmono := calculate_entropy_mono st _ hlen
        linarith

/-- Witness for C5 (amended): a rejected guess leaves the candidate set
unchanged and carries no mutual information (0 ≤ 0). -/
theorem claim_C5_amended_witness :
    (postValidLen exampleSession ['1', '1', '2', '3']).getD 0 ≤
      exampleSession.valid_guesses.length ∧
    0 ≤ (resultMI (process_guess exampleSession ['1', '1', '2', '3'])).getD 0 := by
  have h : (postValidLen exampleSession ['1', '1', '2', '3']).getD 0 ≤
      exampleSession.valid_guesses.length := by
    unfold postValidLen postState
    rw [process_guess_rejected exampleSession _ (by decide), Option.map_some',
      Option.map_some', Option.getD_some]
  exact ⟨h, claim_C5_amended _ _ h⟩

/-- C8 counterexample: on a fresh session with secret 1234 the guess "1235"
shrinks the candidate set from 4536 to 23; the code returns
mutual_information round(12.15 − 4.52, 2) = 7.63 (difference of the rounded
entropies), while round of the difference of the unrounded log₂ sizes is
round(log₂4536 − log₂23, 2) = 7.62: entropies are rounded before the
subtraction, not kept at full precision. -/
theorem claim_C8_cex :
    postState exampleSession ['1', '2', '3', '5'] = some stateAfter1235 ∧
    exampleSession.valid_guesses.length = 4536 ∧
    stateAfter1235.valid_guesses.length = 23 ∧
    resultMI (process_guess exampleSession ['1', '2', '3', '5']) =
      some ((763 : ℝ) / 100) ∧
    round2 (entropyFullPrecision 4536 - entropyFullPrecision 23) =
      (762 : ℝ) / 100 ∧
    ((763 : ℝ) / 100) ≠ ((762 : ℝ) / 100) := by
  have h4536 : round ((100 : ℝ) * logb 2 (4536 : ℕ)) = (1215 : ℤ) := by
    exact_mod_cast round_hundred_logb 4536 1215 (by norm_num) (by norm_num)
      pow_bounds_4536.1 pow_bounds_4536.2
  have h23 : round ((100 : ℝ) * logb 2 (23 : ℕ)) = (452 : ℤ) := by
    exact_mod_cast round_hundred_logb 23 452 (by norm_num) (by norm_num)
      pow_bounds_23.1 pow_bounds_23.2
  refine ⟨postState_run exampleSession _ [1, 2, 3, 5] 3 0 (by decide) (by decide)
    (by decide), exampleSession_len, stateAfter1235_len, ?_, ?_, by norm_num⟩
  · rw [resultMI_run exampleSession _ [1, 2, 3, 5] 3 0 (by decide) (by decide)
      (by decide) (by decide)]
    show some (calculate_mutual_information stateAfter1235
      (calculate_entropy exampleSession)) = _
    rw [Option.some.injEq, calculate_mutual_information_def,
      calculate_entropy_def, calculate_entropy_def, exampleSession_len,
      stateAfter1235_len, entropyFullPrecision_of_pos 4536 (by norm_num),
      entropyFullPrecision_of_pos 23 (by norm_num)]
    rw [round2_of_round _ _ h4536, round2_of_round _ _ h23]
    have hsub : ((1215 : ℤ) : ℝ) / 100 - ((452 : ℤ) : ℝ) / 100 =
        ((763 : ℤ) : ℝ) / 100 := by
      push_cast
      ring
    rw [hsub, round2_int_div]
    push_cast
    ring
  · rw [entropyFullPrecision_of_pos 4536 (by norm_num),
      entropyFullPrecision_of_pos 23 (by norm_num)]
    have hdiff : round ((100 : ℝ) * (logb 2 (4536 : ℕ) - logb 2 (23 : ℕ))) =
        (762 : ℤ) := by
      exact_mod_cast round_hundred_logb_sub 4536 23 762 (by norm_num)
        (by norm_num) (by norm_num) pow_bounds_4536_over_23.1
        pow_bounds_4536_over_23.2
    rw [round2_of_round _ _ hdiff]
    push_cast
    ring

/-- C8 (amended): the returned mutual_information is
round(previous_entropy − current_entropy, 2) where previous_entropy and
current_entropy are the values calculate_entropy returns for the states
before and after the filtering step — values already rounded to 2 decimal
places (calculate_entropy rounds log₂ of the candidate count on every call);
the entropies are not kept at full precision between the snapshots. -/
theorem claim_C8_amended (st : GameState) (g : List Char) (m : ℝ)
    (h : resultMI (process_guess st g) = some m) :
    some m = (postState st g).map
      (fun s => round2 (calculate_entropy st - calculate_entropy s)) ∧
    calculate_entropy st = round2 (entropyFullPrecision st.valid_guesses.length) := by
  refine ⟨?_, calculate_entropy_def st⟩
  cases hb : pyRejects g with
  | true =>
    rw [process_guess_rejected st g hb] at h
    simp [resultMI] at h
  | false =>
    cases hmap : pyMapInt g with
    | none =>
      rw [process_guess_raises st g hb hmap] at h
      simp [resultMI] at h
    | some ds =>
      cases hwin : (calculate_bulls_and_cows st.secret ds).1 == 4 with
      | true =>
        rw [process_guess_run st g ds hb hmap] at h
        dsimp only at h
        rw [hwin] at h
        simp [resultMI] at h
      | false =>
        rw [resultMI_run st g ds
          (calculate_bulls_and_cows st.secret ds).1
          (calculate_bulls_and_cows st.secret ds).2 hb hmap rfl hwin] at h
        rw [postState_run st g ds
          (calculate_bulls_and_cows st.secret ds).1
          (calculate_bulls_and_cows st.secret ds).2 hb hmap rfl]
        simp only [Option.map_some']
        rw [← Option.some.inj h, calculate_mutual_information_def]

/-- Witness for C8 (amended): the first processed guess "5678" of a fresh
session. -/
theorem claim_C8_amended_witness :
    some ((resultMI (process_guess exampleSession ['5', '6', '7', '8'])).getD 0) =
      (postState exampleSession ['5', '6', '7', '8']).map
        (fun s => round2 (calculate_entropy exampleSession -
          calculate_entropy s)) ∧
    calculate_entropy exampleSession =
      round2 (entropyFullPrecision exampleSession.valid_guesses.length) :=
  claim_C8_amended exampleSession ['5', '6', '7', '8'] _ rfl

/-- C10: after any successfully validated guess, the new candidate set equals
the stored universe filtered by agreement with the feedback of that single
guess against the secret; consequently two sessions with the same secret and
universe that process the same guess end with identical candidate sets,
whatever their earlier histories. -/
theorem claim_C10 (st st2 : GameState) (g : List Char) (ds : List ℕ)
    (hmap : pyMapInt g = some ds) (hb : pyRejects g = false)
    (s s2 : GameState) (hs : postState st g = some s)
    (hs2 : postState st2 g = some s2) :
    s.valid_guesses = (st.all_possible_guesses.filter
      (fun c => calculate_bulls_and_cows st.secret c ==
        calculate_bulls_and_cows st.secret ds)) ∧
    (st.secret = st2.secret →
      st.all_possible_guesses = st2.all_possible_guesses →
      s.valid_guesses = s2.valid_guesses) := by
  have h1 := postState_run st g ds
    (calculate_bulls_and_cows st.secret ds).1
    (calculate_bulls_and_cows st.secret ds).2 hb hmap rfl
  have h2 := postState_run st2 g ds
    (calculate_bulls_and_cows st2.secret ds).1
    (calculate_bulls_and_cows st2.secret ds).2 hb hmap rfl
  have hs_eq := Option.some.inj (hs.symm.trans h1)
  have hs2_eq := Option.some.inj (hs2.symm.trans h2)
  constructor
  · rw [hs_eq, update_valid_guesses_valid, attempts_update_all,
      attempts_update_secret, Prod.mk.eta]
  · intro hsec hall
    rw [hs_eq, hs2_eq, update_valid_guesses_valid, update_valid_guesses_valid,
      attempts_update_all, attempts_update_all, attempts_update_secret,
      attempts_update_secret, hsec, hall]

/-- Witness for C10: a fresh session and a session with the same secret but
different attempt counter, history and candidate set both process "5678" and
end with identical candidate sets. -/
theorem claim_C10_witness :
    stateAfter5678.valid_guesses = (exampleSession.all_possible_guesses.filter
      (fun c => calculate_bulls_and_cows exampleSession.secret c ==
        calculate_bulls_and_cows exampleSession.secret [5, 6, 7, 8])) ∧
    (exampleSession.secret = otherHistorySession.secret →
      exampleSession.all_possible_guesses =
        otherHistorySession.all_possible_guesses →
      stateAfter5678.valid_guesses = otherHistoryAfter5678.valid_guesses) := by
  have h1 : postState exampleSession ['5', '6', '7', '8'] = some stateAfter5678 :=
    postState_run exampleSession _ [5, 6, 7, 8] 0 0 (by decide) (by decide)
      (by decide)
  have h2 : postState otherHistorySession ['5', '6', '7', '8'] =
      some otherHistoryAfter5678 :=
    postState_run otherHistorySession _ [5, 6, 7, 8] 0 0 (by decide) (by decide)
      (by decide)
  exact claim_C10 exampleSession otherHistorySession ['5', '6', '7', '8']
    [5, 6, 7, 8] (by decide) (by decide) stateAfter5678 otherHistoryAfter5678
    h1 h2

end BullsCows
